import Mathlib

/-!
Shallow embedding of the Pomodoro timer engine (src/app.js, class
PomodoroTimer).  JavaScript numbers that matter here are integers, so they
are modelled as Int; JS truthiness and the persisted-JSON value space are
modelled by the small JSVal type.  DOM / audio / toast calls are presentation
side effects and are not part of the state; two ghost counters record
observable events the claims speak about: `completions` counts invocations of
complete(), and `pendingSwitches` counts outstanding deferred setTimeout
mode-switch callbacks scheduled by complete().  Active setInterval handles
are tracked in `intervals` (setInterval allocates a fresh positive id;
clearInterval removes it), with `timerInterval` the handle the code stores.
The localStorage slot for the key pomodoroData is the `saved` field:
`none` = absent, `some (Except.error ())` = a stored string JSON.parse
rejects, `some (Except.ok d)` = a string parsing to the object d.
-/

/-- A JavaScript value as it can appear in parsed persisted JSON. -/
inductive JSVal where
  | undef
  | jnull
  | num (n : Int)
  | str (s : String)
  | bool (b : Bool)
  | nan
deriving DecidableEq

def emptyStr : String := ""

/-- JS truthiness: undefined, null, 0, NaN, the empty string and false are
falsy; everything else is truthy. -/
def JSVal.truthy : JSVal → Bool
  | .undef => false
  | .jnull => false
  | .num n => n != 0
  | .str s => s != emptyStr
  | .bool b => b
  | .nan => false

/-- The JS expression `v || d`. -/
def jsOr (v d : JSVal) : JSVal := if v.truthy then v else d

/-- JS strict equality `===` on JSVal (NaN is not equal to anything). -/
def jsEq : JSVal → JSVal → Bool
  | .nan, _ => false
  | _, .nan => false
  | .undef, .undef => true
  | .jnull, .jnull => true
  | .num a, .num b => a == b
  | .str a, .str b => a == b
  | .bool a, .bool b => a == b
  | _, _ => false

/-- Extract an integer from a JSVal, with a fallback for non-numeric values
(used only where theorems restrict the value to be numeric). -/
def JSVal.toIntD : JSVal → Int → Int
  | .num n, _ => n
  | _, d => d

/-- The object saveData writes under the localStorage key pomodoroData
(src/app.js lines 375-385); fields of loaded data may be arbitrary JS
values, so each field is a JSVal (undef = field missing). -/
structure SavedData where
  workDuration : JSVal
  breakDuration : JSVal
  sessionCount : JSVal
  todayFocusMinutes : JSVal
  currentStreak : JSVal
  lastDate : JSVal
deriving DecidableEq

deriving instance DecidableEq for Except

/-- The engine state: fields of the PomodoroTimer constructor
(src/app.js lines 24-43) that belong to the timer state machine, plus the
interval-handle bookkeeping, the ghost event counters and the persisted
store described in the header comment. -/
structure TimerState where
  workDuration : Int
  breakDuration : Int
  timeRemaining : Int
  totalTime : Int
  isRunning : Bool
  isWorkMode : Bool
  timerInterval : Option Nat
  sessionCount : Int
  todayFocusMinutes : Int
  currentStreak : Int
  dailyGoal : Int
  soundEnabled : Bool
  backgroundTime : Option Int
  intervals : List Nat
  nextHandle : Nat
  pendingSwitches : Nat
  completions : Nat
  saved : Option (Except Unit SavedData)
deriving DecidableEq

/-- The constructor defaults (src/app.js lines 24-43): 25-minute work,
5-minute break, Work mode, not running, full work duration remaining. -/
def initState : TimerState :=
  { workDuration := 25 * 60
    breakDuration := 5 * 60
    timeRemaining := 25 * 60
    totalTime := 25 * 60
    isRunning := false
    isWorkMode := true
    timerInterval := none
    sessionCount := 0
    todayFocusMinutes := 0
    currentStreak := 0
    dailyGoal := 8
    soundEnabled := true
    backgroundTime := none
    intervals := []
    nextHandle := 1
    pendingSwitches := 0
    completions := 0
    saved := none }

/-- pause() (src/app.js lines 134-145): running := false; if a tracked
interval exists, clearInterval it and drop the handle. -/
def pause (st : TimerState) : TimerState :=
  { st with
    isRunning := false
    intervals :=
      match st.timerInterval with
      | some h => st.intervals.erase h
      | none => st.intervals
    timerInterval := none }

/-- start() (src/app.js lines 115-132): running := true and a fresh
setInterval handle is allocated and tracked; the previously tracked handle
is overwritten without clearInterval, so it stays in `intervals`. -/
def start (st : TimerState) : TimerState :=
  { st with
    isRunning := true
    intervals := st.intervals ++ [st.nextHandle]
    timerInterval := some st.nextHandle
    nextHandle := st.nextHandle + 1 }

/-- Math.round(w / 60) for an integer w: floor(w/60 + 1/2). -/
def roundMin (w : Int) : Int := Int.fdiv (w + 30) 60

/-- The stat updates of the Work branch of complete()
(src/app.js lines 191-197). -/
def bumpStats (st : TimerState) : TimerState :=
  { st with
    sessionCount := st.sessionCount + 1
    todayFocusMinutes := st.todayFocusMinutes + roundMin st.workDuration
    currentStreak := st.currentStreak + 1 }

/-- saveData() (src/app.js lines 375-385): write the current config, stats
and today's date string to the store. -/
def saveData (st : TimerState) (today : String) : TimerState :=
  { st with
    saved := some (Except.ok
      { workDuration := JSVal.num st.workDuration
        breakDuration := JSVal.num st.breakDuration
        sessionCount := JSVal.num st.sessionCount
        todayFocusMinutes := JSVal.num st.todayFocusMinutes
        currentStreak := JSVal.num st.currentStreak
        lastDate := JSVal.str today }) }

/-- The setTimeout at the end of complete() (src/app.js line 204): one more
deferred switchMode callback is outstanding.  No handle is stored, so
nothing ever cancels it. -/
def schedSwitch (st : TimerState) : TimerState :=
  { st with pendingSwitches := st.pendingSwitches + 1 }

/-- complete() (src/app.js lines 184-205): pause; in Work mode bump the
stats and persist; in both modes schedule the deferred mode switch.  The
source tests this.isWorkMode after pause(), which does not change it, so
the test is written on the incoming state.  `completions` is a ghost
counter of invocations. -/
def complete (st : TimerState) (today : String) : TimerState :=
  let p := pause { st with completions := st.completions + 1 }
  if st.isWorkMode then schedSwitch (saveData (bumpStats p) today)
  else schedSwitch p

/-- The setInterval callback body (src/app.js lines 122-131): decrement,
then complete() when the result is <= 0, else only presenter updates. -/
def tick (st : TimerState) (today : String) : TimerState :=
  if st.timeRemaining - 1 ≤ 0 then
    complete { st with timeRemaining := st.timeRemaining - 1 } today
  else { st with timeRemaining := st.timeRemaining - 1 }

/-- reset() (src/app.js lines 147-154): pause, then remaining and total are
set to the configured duration of the current mode. -/
def reset (st : TimerState) : TimerState :=
  let p := pause st
  { p with
    timeRemaining := if p.isWorkMode then p.workDuration else p.breakDuration
    totalTime := if p.isWorkMode then p.workDuration else p.breakDuration }

/-- switchMode(toWork) (src/app.js lines 161-182): set the mode and give it
its full configured duration.  Pure presenter calls are omitted. -/
def switchMode (st : TimerState) (toWork : Bool) : TimerState :=
  { st with
    isWorkMode := toWork
    timeRemaining := if toWork then st.workDuration else st.breakDuration
    totalTime := if toWork then st.workDuration else st.breakDuration }

/-- skip() (src/app.js lines 156-159): pause, then switch to the opposite
mode. -/
def skip (st : TimerState) : TimerState :=
  switchMode (pause st) (!st.isWorkMode)

/-- One outstanding deferred setTimeout callback from complete() firing
(src/app.js line 204): switchMode(!isWorkMode), with the mode read at fire
time. -/
def firePendingSwitch (st : TimerState) : TimerState :=
  if 0 < st.pendingSwitches then
    switchMode { st with pendingSwitches := st.pendingSwitches - 1 } (!st.isWorkMode)
  else st

/-- The visibilitychange foreground branch (src/app.js lines 429-441):
guarded by a recorded background timestamp and isRunning; clamp the
remaining time at 0 and complete() when it reached 0.  `elapsed` is the
whole-second duration spent in the background. -/
def resync (st : TimerState) (elapsed : Int) (today : String) : TimerState :=
  if st.backgroundTime.isSome && st.isRunning then
    let s := { st with
      timeRemaining := max 0 (st.timeRemaining - elapsed)
      backgroundTime := none }
    if s.timeRemaining ≤ 0 then complete s today else s
  else st

/-- The five loaded values of loadData (src/app.js lines 393-400), at the
exact JS value level: `data.f || default`, with the daily rollover decided
by strict equality of the stored lastDate against today's date string. -/
structure LoadedFields where
  workDuration : JSVal
  breakDuration : JSVal
  sessionCount : JSVal
  todayFocusMinutes : JSVal
  currentStreak : JSVal
deriving DecidableEq

def loadFields (data : SavedData) (today : String) : LoadedFields :=
  let isToday := jsEq data.lastDate (JSVal.str today)
  { workDuration := jsOr data.workDuration (JSVal.num (25 * 60))
    breakDuration := jsOr data.breakDuration (JSVal.num (5 * 60))
    sessionCount := if isToday then jsOr data.sessionCount (JSVal.num 0) else JSVal.num 0
    todayFocusMinutes := if isToday then jsOr data.todayFocusMinutes (JSVal.num 0) else JSVal.num 0
    currentStreak := if isToday then jsOr data.currentStreak (JSVal.num 0) else JSVal.num 0 }

def falseStr : String := "false"

/-- The sound-preference tail of loadData (src/app.js lines 412-417). -/
def applySoundPref (st : TimerState) (soundPref : Option String) : TimerState :=
  if soundPref = some falseStr then { st with soundEnabled := false } else st

/-- loadData() (src/app.js lines 387-418).  JSON.parse of an unparsable
stored string throws, and loadData has no try/catch, so the error
propagates (the Except.error branch).  The parsed branch installs the
loadFields values; the source stores a non-numeric loaded value as-is, so
this state-level specialization (whose fields are Int) is stated and used
only for numeric stored fields — `loadFields` is the exact value-level
model for everything else. -/
def loadData (st : TimerState) (soundPref : Option String) (today : String) :
    Except Unit TimerState :=
  match st.saved with
  | none => Except.ok (applySoundPref st soundPref)
  | some (Except.error e) => Except.error e
  | some (Except.ok data) =>
    let f := loadFields data today
    Except.ok (applySoundPref
      { st with
        workDuration := f.workDuration.toIntD 0
        breakDuration := f.breakDuration.toIntD 0
        sessionCount := f.sessionCount.toIntD 0
        todayFocusMinutes := f.todayFocusMinutes.toIntD 0
        currentStreak := f.currentStreak.toIntD 0
        timeRemaining := f.workDuration.toIntD 0
        totalTime := f.workDuration.toIntD 0 }
      soundPref)

/-- The JS expression `parseInt(x) || d` of applySettings
(src/app.js lines 279-280): `none` models a NaN parse (non-numeric input),
and a parsed 0 is falsy, so both fall back to the default. -/
def jsOrInt (v : Option Int) (d : Int) : Int :=
  match v with
  | some n => if n = 0 then d else n
  | none => d

/-- applySettings() (src/app.js lines 278-293): default the parsed inputs,
clamp work to [1,120] and break to [1,60] minutes, convert to seconds,
reset, persist. -/
def applySettings (st : TimerState) (workInput breakInput : Option Int)
    (today : String) : TimerState :=
  saveData
    (reset
      { st with
        workDuration := max 1 (min 120 (jsOrInt workInput 25)) * 60
        breakDuration := max 1 (min 60 (jsOrInt breakInput 5)) * 60 })
    today

def dayA : String := "Mon"
def dayB : String := "Tue"
def strX : String := "x"

/-! ### Helper lemmas: projections of complete() -/

theorem complete_timeRemaining (st : TimerState) (t : String) :
    (complete st t).timeRemaining = st.timeRemaining := by
  by_cases h : st.isWorkMode <;>
    simp [complete, schedSwitch, saveData, bumpStats, pause, h]

theorem complete_completions (st : TimerState) (t : String) :
    (complete st t).completions = st.completions + 1 := by
  by_cases h : st.isWorkMode <;>
    simp [complete, schedSwitch, saveData, bumpStats, pause, h]

theorem complete_isRunning (st : TimerState) (t : String) :
    (complete st t).isRunning = false := by
  by_cases h : st.isWorkMode <;>
    simp [complete, schedSwitch, saveData, bumpStats, pause, h]

theorem complete_timerInterval (st : TimerState) (t : String) :
    (complete st t).timerInterval = none := by
  by_cases h : st.isWorkMode <;>
    simp [complete, schedSwitch, saveData, bumpStats, pause, h]

theorem complete_isWorkMode (st : TimerState) (t : String) :
    (complete st t).isWorkMode = st.isWorkMode := by
  by_cases h : st.isWorkMode <;>
    simp [complete, schedSwitch, saveData, bumpStats, pause, h]

theorem complete_backgroundTime (st : TimerState) (t : String) :
    (complete st t).backgroundTime = st.backgroundTime := by
  by_cases h : st.isWorkMode <;>
    simp [complete, schedSwitch, saveData, bumpStats, pause, h]

theorem complete_sessionCount (st : TimerState) (t : String) :
    (complete st t).sessionCount =
      if st.isWorkMode then st.sessionCount + 1 else st.sessionCount := by
  by_cases h : st.isWorkMode <;>
    simp [complete, schedSwitch, saveData, bumpStats, pause, h]

theorem complete_pendingSwitches (st : TimerState) (t : String) :
    (complete st t).pendingSwitches = st.pendingSwitches + 1 := by
  by_cases h : st.isWorkMode <;>
    simp [complete, schedSwitch, saveData, bumpStats, pause, h]

/-! ### Concrete example states -/

/-- A running Work-mode state at the moment the countdown reaches 0
(one active interval tracked), used to exercise complete(). -/
def c7Start : TimerState :=
  { initState with
    isRunning := true
    timerInterval := some 1
    intervals := [1]
    nextHandle := 2
    timeRemaining := 0 }

/-! ### C2 -/

/-- C2: complete() in Work mode increments sessionCount and currentStreak
by 1, adds round(workDurationSeconds/60) to todayFocusMinutes and persists
the updated stats together with the config and today's date; in Break mode
it leaves all three stats and the store unchanged.  With the default
1500-second work duration and zero stats, one Work-mode complete() yields
sessionCount 1, todayFocusMinutes 25, currentStreak 1. -/
theorem C2_complete_stats (st : TimerState) (t : String) :
    ((complete st t).sessionCount =
      if st.isWorkMode then st.sessionCount + 1 else st.sessionCount)
    ∧ ((complete st t).todayFocusMinutes =
      if st.isWorkMode then st.todayFocusMinutes + roundMin st.workDuration
      else st.todayFocusMinutes)
    ∧ ((complete st t).currentStreak =
      if st.isWorkMode then st.currentStreak + 1 else st.currentStreak)
    ∧ ((complete st t).saved =
      if st.isWorkMode then
        some (Except.ok
          { workDuration := JSVal.num st.workDuration
            breakDuration := JSVal.num st.breakDuration
            sessionCount := JSVal.num (st.sessionCount + 1)
            todayFocusMinutes :=
              JSVal.num (st.todayFocusMinutes + roundMin st.workDuration)
            currentStreak := JSVal.num (st.currentStreak + 1)
            lastDate := JSVal.str t })
      else st.saved)
    ∧ (complete initState dayA).sessionCount = 1
    ∧ (complete initState dayA).todayFocusMinutes = 25
    ∧ (complete initState dayA).currentStreak = 1 := by
  refine ⟨?_, ?_, ?_, ?_, by decide, by decide, by decide⟩ <;>
    by_cases h : st.isWorkMode <;>
      simp [complete, schedSwitch, saveData, bumpStats, pause, h]

/-! ### C7 -/

/-- C7: the deferred post-complete mode switch is never cancelled.  From a
Work-mode completion, a subsequent pause(), reset() or skip() leaves the
deferred switchMode callback outstanding; after skip() has moved the engine
to Break mode, the stale callback still fires and flips the engine back to
Work mode with a full work duration, against the state the user chose. -/
theorem C7_stale_switch_fires :
    (pause (complete c7Start dayA)).pendingSwitches = 1
    ∧ (reset (complete c7Start dayA)).pendingSwitches = 1
    ∧ (skip (complete c7Start dayA)).pendingSwitches = 1
    ∧ (skip (complete c7Start dayA)).isWorkMode = false
    ∧ (firePendingSwitch (skip (complete c7Start dayA))).isWorkMode = true
    ∧ (firePendingSwitch (skip (complete c7Start dayA))).timeRemaining = 1500 := by
  decide

/-! ### C8 -/

/-- C8: neither skip() nor reset() changes sessionCount, currentStreak or
todayFocusMinutes, and reset() establishes
remainingSeconds = totalSeconds = the configured duration of the current
mode. -/
theorem C8_skip_reset_frame (st : TimerState) :
    (skip st).sessionCount = st.sessionCount
    ∧ (skip st).todayFocusMinutes = st.todayFocusMinutes
    ∧ (skip st).currentStreak = st.currentStreak
    ∧ (reset st).sessionCount = st.sessionCount
    ∧ (reset st).todayFocusMinutes = st.todayFocusMinutes
    ∧ (reset st).currentStreak = st.currentStreak
    ∧ (reset st).timeRemaining =
        (if st.isWorkMode then st.workDuration else st.breakDuration)
    ∧ (reset st).totalTime = (reset st).timeRemaining := by
  refine ⟨?_, ?_, ?_, ?_, ?_, ?_, ?_, ?_⟩ <;>
    simp [skip, switchMode, reset, pause]

/-! ### C9 -/

/-- C9 counterexample: start() is not idempotent in the claimed sense.
After a single start() from the initial state exactly one interval is
active, but a second start() while already running allocates a second
setInterval without clearing the first, so two tick subscriptions are
active, not one. -/
theorem C9_double_start_counterexample :
    (start initState).intervals.length = 1
    ∧ (start (start initState)).intervals.length = 2 := by
  decide

/-- C9 amended: start() sets running = true and leaves the countdown, mode
and stats unchanged, but each call appends a fresh interval handle and
tracks only the newest one; after start() twice, a pause() clears only the
tracked handle, so one leaked subscription stays active — start() while
already running is not idempotent. -/
theorem C9_start_amended (st : TimerState) :
    (start st).isRunning = true
    ∧ (start st).timeRemaining = st.timeRemaining
    ∧ (start st).totalTime = st.totalTime
    ∧ (start st).isWorkMode = st.isWorkMode
    ∧ (start st).sessionCount = st.sessionCount
    ∧ (start st).todayFocusMinutes = st.todayFocusMinutes
    ∧ (start st).currentStreak = st.currentStreak
    ∧ (start st).intervals = st.intervals ++ [st.nextHandle]
    ∧ (start st).timerInterval = some st.nextHandle
    ∧ (pause (start (start st))).intervals.length = st.intervals.length + 1 := by
  have hm : st.nextHandle + 1 ∈ (st.intervals ++ [st.nextHandle]) ++ [st.nextHandle + 1] := by
    simp
  refine ⟨rfl, rfl, rfl, rfl, rfl, rfl, rfl, rfl, rfl, ?_⟩
  simp only [pause, start]
  rw [List.length_erase_of_mem hm]
  simp

/-! ### C10 -/

/-- C10: with no persisted data the engine starts with the defaults
(workDuration 1500 s, breakDuration 300 s, Work mode, not running,
remaining = total = workDuration) and loadData leaves that state unchanged;
and applySettings substitutes the same defaults (25 and 5 minutes) for
non-numeric inputs before clamping. -/
theorem C10_defaults (t : String) (st : TimerState) :
    initState.workDuration = 1500
    ∧ initState.breakDuration = 300
    ∧ initState.isWorkMode = true
    ∧ initState.isRunning = false
    ∧ initState.timeRemaining = 1500
    ∧ initState.totalTime = 1500
    ∧ loadData initState none t = Except.ok initState
    ∧ (applySettings st none none t).workDuration = 1500
    ∧ (applySettings st none none t).breakDuration = 300 := by
  refine ⟨rfl, rfl, rfl, rfl, rfl, rfl, rfl, ?_, ?_⟩ <;>
    simp [applySettings, saveData, reset, pause, jsOrInt]

/-! ### C1 -/

/-- The state right after a first Work-mode completion with the default
config: countdown at 0, stats counted once, the deferred mode switch still
pending. -/
def c1post : TimerState :=
  { initState with
    timeRemaining := 0
    sessionCount := 1
    todayFocusMinutes := 25
    currentStreak := 1
    completions := 1
    pendingSwitches := 1
    saved := some (Except.ok
      { workDuration := JSVal.num 1500
        breakDuration := JSVal.num 300
        sessionCount := JSVal.num 1
        todayFocusMinutes := JSVal.num 25
        currentStreak := JSVal.num 1
        lastDate := JSVal.str dayA }) }

/-- C1 counterexample: a tick delivered while remainingSeconds is 0 (after
a completion, before the deferred switchMode occurs) fires complete() a
second time: the invocation counter goes from 1 to 2, the Work session is
counted twice, and the remaining time becomes -1. -/
theorem C1_tick_at_zero_counterexample :
    c1post.completions = 1
    ∧ (tick c1post dayA).completions = 2
    ∧ (tick c1post dayA).sessionCount = 2
    ∧ (tick c1post dayA).timeRemaining = -1 := by
  decide

/-- C1 amended: while remainingSeconds exceeds 1, each tick only decrements
it by exactly 1; the tick that brings it from 1 to 0 invokes complete()
exactly once, and complete() pauses, cancelling the tracked interval, so no
further tick is delivered in normal operation; the tick handler itself has
no idempotence guard, so a tick that is nevertheless applied at
remainingSeconds = 0 invokes complete() again. -/
theorem C1_tick_amended (st : TimerState) (t : String) :
    (1 < st.timeRemaining →
      tick st t = { st with timeRemaining := st.timeRemaining - 1 })
    ∧ (st.timeRemaining = 1 →
        (tick st t).timeRemaining = 0
        ∧ (tick st t).completions = st.completions + 1
        ∧ (tick st t).isRunning = false
        ∧ (tick st t).timerInterval = none)
    ∧ (st.timeRemaining = 0 → (tick st t).completions = st.completions + 1) := by
  refine ⟨?_, ?_, ?_⟩
  · intro h
    simp only [tick]
    rw [if_neg (by omega)]
  · intro h
    simp only [tick]
    rw [if_pos (by omega)]
    refine ⟨?_, ?_, ?_, ?_⟩
    · rw [complete_timeRemaining]
      show st.timeRemaining - 1 = 0
      omega
    · exact complete_completions _ t
    · exact complete_isRunning _ t
    · exact complete_timerInterval _ t
  · intro h
    simp only [tick]
    rw [if_pos (by omega)]
    exact complete_completions _ t

def tickEx5 : TimerState :=
  { initState with
    timeRemaining := 5
    isRunning := true
    timerInterval := some 1
    intervals := [1]
    nextHandle := 2 }

def tickEx1 : TimerState :=
  { initState with
    timeRemaining := 1
    isRunning := true
    timerInterval := some 1
    intervals := [1]
    nextHandle := 2 }

def tickEx0 : TimerState :=
  { initState with
    timeRemaining := 0
    isRunning := true
    timerInterval := some 1
    intervals := [1]
    nextHandle := 2 }

theorem C1_tick_amended_witness :
    tick tickEx5 dayA = { tickEx5 with timeRemaining := tickEx5.timeRemaining - 1 }
    ∧ ((tick tickEx1 dayA).timeRemaining = 0
        ∧ (tick tickEx1 dayA).completions = tickEx1.completions + 1
        ∧ (tick tickEx1 dayA).isRunning = false
        ∧ (tick tickEx1 dayA).timerInterval = none)
    ∧ (tick tickEx0 dayA).completions = tickEx0.completions + 1 :=
  ⟨(C1_tick_amended tickEx5 dayA).1 (by decide),
   (C1_tick_amended tickEx1 dayA).2.1 (by decide),
   (C1_tick_amended tickEx0 dayA).2.2 (by decide)⟩

/-! ### C3 -/

/-- C3: for a running state with a recorded background timestamp and a
nonnegative elapsed time, resync clamps the remaining time at
max(0, remaining - elapsed), never leaves it negative, invokes complete()
exactly once exactly when the clamped value is 0, and otherwise changes
nothing but the remaining time and the cleared background timestamp. -/
theorem C3_resync_clamps (st : TimerState) (e : Int) (t : String)
    (hr : st.isRunning = true) (hb : st.backgroundTime.isSome = true)
    (he : 0 ≤ e) :
    (resync st e t).timeRemaining = max 0 (st.timeRemaining - e)
    ∧ 0 ≤ (resync st e t).timeRemaining
    ∧ (resync st e t).completions =
        st.completions + (if st.timeRemaining - e ≤ 0 then 1 else 0)
    ∧ (0 < st.timeRemaining - e →
        resync st e t =
          { st with timeRemaining := st.timeRemaining - e, backgroundTime := none }) := by
  have hg : (st.backgroundTime.isSome && st.isRunning) = true := by
    simp [hr, hb]
  by_cases hle : st.timeRemaining - e ≤ 0
  · have hmax : max 0 (st.timeRemaining - e) = 0 := max_eq_left hle
    have hres : resync st e t =
        complete { st with timeRemaining := 0, backgroundTime := none } t := by
      simp [resync, hg, hmax]
    refine ⟨?_, ?_, ?_, ?_⟩
    · rw [hres, complete_timeRemaining, hmax]
    · rw [hres, complete_timeRemaining]
    · rw [hres, complete_completions, if_pos hle]
    · intro h0
      omega
  · have hpos : 0 < st.timeRemaining - e := by omega
    have hmax : max 0 (st.timeRemaining - e) = st.timeRemaining - e :=
      max_eq_right (le_of_lt hpos)
    have hres : resync st e t =
        { st with timeRemaining := st.timeRemaining - e, backgroundTime := none } := by
      simp [resync, hg, hmax, hle]
    refine ⟨?_, ?_, ?_, ?_⟩
    · rw [hres, hmax]
    · rw [hres]
      show 0 ≤ st.timeRemaining - e
      omega
    · rw [hres, if_neg hle]
      simp
    · intro _
      exact hres

def resyncEx : TimerState :=
  { initState with
    timeRemaining := 10
    isRunning := true
    timerInterval := some 1
    intervals := [1]
    nextHandle := 2
    backgroundTime := some 0 }

theorem C3_resync_clamps_witness :
    (resync resyncEx 3 dayA).timeRemaining = max 0 (resyncEx.timeRemaining - 3)
    ∧ 0 ≤ (resync resyncEx 3 dayA).timeRemaining
    ∧ (resync resyncEx 3 dayA).completions =
        resyncEx.completions + (if resyncEx.timeRemaining - 3 ≤ 0 then 1 else 0)
    ∧ (0 < resyncEx.timeRemaining - 3 →
        resync resyncEx 3 dayA =
          { resyncEx with timeRemaining := resyncEx.timeRemaining - 3, backgroundTime := none }) :=
  C3_resync_clamps resyncEx 3 dayA (by decide) (by decide) (by decide)

/-! ### C4 -/

theorem jsOr_num_zero (n : Int) : jsOr (JSVal.num n) (JSVal.num 0) = JSVal.num n := by
  by_cases h : n = 0 <;> simp [jsOr, JSVal.truthy, h]

theorem jsOr_num_ne {n : Int} (h : n ≠ 0) (d : JSVal) :
    jsOr (JSVal.num n) d = JSVal.num n := by
  simp [jsOr, JSVal.truthy, h]

/-- C4: loading persisted numeric data whose lastDate equals today's date
preserves the stored sessionCount, currentStreak and todayFocusMinutes;
with a different lastDate all three load as 0 while the persisted
workDuration and breakDuration are kept; and no tick-time operation ever
resets the session count — the rollover exists only in the load path. -/
theorem C4_daily_rollover (w b sc fm cs : Int) (t t' : String)
    (hw : w ≠ 0) (hb : b ≠ 0) (ht : t' ≠ t) :
    loadFields
      { workDuration := JSVal.num w
        breakDuration := JSVal.num b
        sessionCount := JSVal.num sc
        todayFocusMinutes := JSVal.num fm
        currentStreak := JSVal.num cs
        lastDate := JSVal.str t } t
      = { workDuration := JSVal.num w
          breakDuration := JSVal.num b
          sessionCount := JSVal.num sc
          todayFocusMinutes := JSVal.num fm
          currentStreak := JSVal.num cs }
    ∧ loadFields
      { workDuration := JSVal.num w
        breakDuration := JSVal.num b
        sessionCount := JSVal.num sc
        todayFocusMinutes := JSVal.num fm
        currentStreak := JSVal.num cs
        lastDate := JSVal.str t' } t
      = { workDuration := JSVal.num w
          breakDuration := JSVal.num b
          sessionCount := JSVal.num 0
          todayFocusMinutes := JSVal.num 0
          currentStreak := JSVal.num 0 }
    ∧ (∀ s u, (tick s u).sessionCount = s.sessionCount
        ∨ (tick s u).sessionCount = s.sessionCount + 1) := by
  refine ⟨?_, ?_, ?_⟩
  · have hsame : jsEq (JSVal.str t) (JSVal.str t) = true := by simp [jsEq]
    simp [loadFields, hsame, jsOr_num_zero, jsOr_num_ne hw, jsOr_num_ne hb]
  · have hdiff : jsEq (JSVal.str t') (JSVal.str t) = false := by
      simp [jsEq]
      exact ht
    simp [loadFields, hdiff, jsOr_num_ne hw, jsOr_num_ne hb]
  · intro s u
    by_cases hq : s.timeRemaining - 1 ≤ 0
    · simp only [tick]
      rw [if_pos hq, complete_sessionCount]
      by_cases hm : s.isWorkMode <;> simp [hm]
    · simp only [tick]
      rw [if_neg hq]
      exact Or.inl rfl

theorem C4_daily_rollover_witness :
    loadFields
      { workDuration := JSVal.num 1500
        breakDuration := JSVal.num 300
        sessionCount := JSVal.num 2
        todayFocusMinutes := JSVal.num 50
        currentStreak := JSVal.num 2
        lastDate := JSVal.str dayA } dayA
      = { workDuration := JSVal.num 1500
          breakDuration := JSVal.num 300
          sessionCount := JSVal.num 2
          todayFocusMinutes := JSVal.num 50
          currentStreak := JSVal.num 2 }
    ∧ loadFields
      { workDuration := JSVal.num 1500
        breakDuration := JSVal.num 300
        sessionCount := JSVal.num 2
        todayFocusMinutes := JSVal.num 50
        currentStreak := JSVal.num 2
        lastDate := JSVal.str dayB } dayA
      = { workDuration := JSVal.num 1500
          breakDuration := JSVal.num 300
          sessionCount := JSVal.num 0
          todayFocusMinutes := JSVal.num 0
          currentStreak := JSVal.num 0 } :=
  ⟨(C4_daily_rollover 1500 300 2 50 2 dayA dayB (by decide) (by decide) (by decide)).1,
   (C4_daily_rollover 1500 300 2 50 2 dayA dayB (by decide) (by decide) (by decide)).2.1⟩

/-! ### C5 -/

/-- C5 counterexample: the claim says minute inputs work=0, break=200 are
clamped to work=1 minute (60 s) and break=60 minutes (3600 s); in the code
a parsed 0 is falsy, so `parseInt(v) || 25` replaces it by the default 25
and the resulting work duration is 1500 s, not 60 s (the break input 200 is
indeed clamped to 3600 s). -/
theorem C5_settings_counterexample :
    (applySettings initState (some 0) (some 200) dayA).workDuration = 1500
    ∧ (applySettings initState (some 0) (some 200) dayA).workDuration ≠ 60
    ∧ (applySettings initState (some 0) (some 200) dayA).breakDuration = 3600 := by
  decide

/-- C5 amended: applySettings first replaces an input that parses to NaN or
to 0 by the default (25 work / 5 break minutes), then clamps the work
minutes to [1,120] and the break minutes to [1,60], converts to seconds
(so 60-7200 s and 60-3600 s), persists config and stats, and via reset()
establishes remainingSeconds = totalSeconds = the new duration of the
current mode. -/
theorem C5_applySettings_amended (st : TimerState) (wIn bIn : Option Int) (t : String) :
    (applySettings st wIn bIn t).workDuration = max 1 (min 120 (jsOrInt wIn 25)) * 60
    ∧ (applySettings st wIn bIn t).breakDuration = max 1 (min 60 (jsOrInt bIn 5)) * 60
    ∧ 60 ≤ (applySettings st wIn bIn t).workDuration
    ∧ (applySettings st wIn bIn t).workDuration ≤ 7200
    ∧ 60 ≤ (applySettings st wIn bIn t).breakDuration
    ∧ (applySettings st wIn bIn t).breakDuration ≤ 3600
    ∧ (applySettings st wIn bIn t).timeRemaining =
        (if st.isWorkMode then (applySettings st wIn bIn t).workDuration
         else (applySettings st wIn bIn t).breakDuration)
    ∧ (applySettings st wIn bIn t).totalTime = (applySettings st wIn bIn t).timeRemaining
    ∧ (applySettings st wIn bIn t).saved = some (Except.ok
        { workDuration := JSVal.num (max 1 (min 120 (jsOrInt wIn 25)) * 60)
          breakDuration := JSVal.num (max 1 (min 60 (jsOrInt bIn 5)) * 60)
          sessionCount := JSVal.num st.sessionCount
          todayFocusMinutes := JSVal.num st.todayFocusMinutes
          currentStreak := JSVal.num st.currentStreak
          lastDate := JSVal.str t }) := by
  have hw1 : (1 : Int) ≤ max 1 (min 120 (jsOrInt wIn 25)) := le_max_left _ _
  have hw2 : max 1 (min 120 (jsOrInt wIn 25)) ≤ 120 :=
    max_le (by norm_num) (min_le_left _ _)
  have hb1 : (1 : Int) ≤ max 1 (min 60 (jsOrInt bIn 5)) := le_max_left _ _
  have hb2 : max 1 (min 60 (jsOrInt bIn 5)) ≤ 60 :=
    max_le (by norm_num) (min_le_left _ _)
  refine ⟨rfl, rfl, ?_, ?_, ?_, ?_, ?_, rfl, rfl⟩
  · show (60 : Int) ≤ max 1 (min 120 (jsOrInt wIn 25)) * 60
    nlinarith
  · show max 1 (min 120 (jsOrInt wIn 25)) * 60 ≤ 7200
    nlinarith
  · show (60 : Int) ≤ max 1 (min 60 (jsOrInt bIn 5)) * 60
    nlinarith
  · show max 1 (min 60 (jsOrInt bIn 5)) * 60 ≤ 3600
    nlinarith
  · by_cases hm : st.isWorkMode <;>
      simp [applySettings, saveData, reset, pause, hm]

/-! ### C6 -/

/-- C6 counterexample: a persisted string JSON.parse rejects makes loadData
propagate the error to the caller instead of substituting defaults, and a
parsed negative workDuration is truthy, so it is kept as loaded rather
than being replaced by the 1500-second default. -/
theorem C6_load_counterexample :
    loadData { initState with saved := some (Except.error ()) } none dayA
      = Except.error ()
    ∧ (loadFields
        { workDuration := JSVal.num (-300)
          breakDuration := JSVal.num 300
          sessionCount := JSVal.num 0
          todayFocusMinutes := JSVal.num 0
          currentStreak := JSVal.num 0
          lastDate := JSVal.str dayA } dayA).workDuration = JSVal.num (-300)
    ∧ (loadFields
        { workDuration := JSVal.num (-300)
          breakDuration := JSVal.num 300
          sessionCount := JSVal.num 0
          todayFocusMinutes := JSVal.num 0
          currentStreak := JSVal.num 0
          lastDate := JSVal.str dayA } dayA).workDuration ≠ JSVal.num 1500 := by
  decide

/-- C6 amended: loading replaces missing or falsy persisted fields
(absent/undefined, null, 0, NaN, the empty string, false) by the defaults,
but keeps truthy malformed values (negative numbers, non-empty non-numeric
strings) as loaded, and an unparsable persisted string makes the load throw
to the caller. -/
theorem C6_load_amended (st : TimerState) (sp : Option String) (t : String) (e : Unit) :
    loadData { st with saved := some (Except.error e) } sp t = Except.error e
    ∧ loadFields
        { workDuration := JSVal.undef
          breakDuration := JSVal.undef
          sessionCount := JSVal.undef
          todayFocusMinutes := JSVal.undef
          currentStreak := JSVal.undef
          lastDate := JSVal.undef } dayA
      = { workDuration := JSVal.num 1500
          breakDuration := JSVal.num 300
          sessionCount := JSVal.num 0
          todayFocusMinutes := JSVal.num 0
          currentStreak := JSVal.num 0 }
    ∧ loadFields
        { workDuration := JSVal.num (-300)
          breakDuration := JSVal.str strX
          sessionCount := JSVal.num (-2)
          todayFocusMinutes := JSVal.undef
          currentStreak := JSVal.num 0
          lastDate := JSVal.str dayA } dayA
      = { workDuration := JSVal.num (-300)
          breakDuration := JSVal.str strX
          sessionCount := JSVal.num (-2)
          todayFocusMinutes := JSVal.num 0
          currentStreak := JSVal.num 0 } :=
  ⟨rfl, by decide, by decide⟩
